import Mathlib

/-!
Verification development for the NEET-PG study-tracker application.

The application state (three persisted collections), the import/export and
load operations, the Gemini gateway wrappers, the dashboard derivations and
the session timer are shallowly embedded below, translated from the
TypeScript source (App component, Dashboard.tsx, geminiService.ts,
Timer component).  Dynamic JavaScript values that flow through
`JSON.parse`/`JSON.stringify` are modelled by an explicit `Json` tree;
serialisation to the backup file and parsing it back is modelled as the
identity on that tree.  Machine numbers are modelled as exact rationals
and integers (the quantities involved - second counts, millisecond
timestamps, counts - are far below 2^53, where JavaScript numbers are
exact).
-/

namespace NEETPG

/-- A JSON value, the parse result of `JSON.parse` and the dynamic shape of
the persisted collections.  Numbers are modelled as exact rationals. -/
inductive Json where
  | null
  | bool (b : Bool)
  | num (q : ℚ)
  | str (s : String)
  | arr (elems : List Json)
  | obj (fields : List (String × Json))

/-- JavaScript truthiness of a value (`if (v)`): `null`, `false`, `0` and
the empty string are falsy; every array and object is truthy. -/
def truthy : Json → Bool
  | .null => false
  | .bool b => b
  | .num q => !(q == 0)
  | .str s => !(s == "")
  | .arr _ => true
  | .obj _ => true

/-- Property lookup on an object field list; with duplicate keys the later
entry wins, as in JavaScript object semantics. -/
def objFind (fs : List (String × Json)) (k : String) : Option Json :=
  (fs.reverse.find? (fun p => p.1 == k)).map Prod.snd

/-- JavaScript property access `v[k]`: defined on objects, `undefined`
(here `none`) on booleans, numbers, strings and arrays. Access on `null`
throws in JavaScript and is handled separately at its one use site. -/
def jsGet (v : Json) (k : String) : Option Json :=
  match v with
  | .obj fs => objFind fs k
  | _ => none

/-- Truthiness of a possibly-`undefined` value (`if (obj.k)`). -/
def isTruthy (o : Option Json) : Bool :=
  match o with
  | some v => truthy v
  | none => false

/-- Whether a possibly-absent field is exactly the boolean `true`. -/
def isTrueJson (o : Option Json) : Bool :=
  match o with
  | some (.bool true) => true
  | _ => false

/-- `Array.isArray`. -/
def isArrJ : Json → Bool
  | .arr _ => true
  | _ => false

/-- Length of a JSON array (0 on any non-array, mirroring that a spurious
`.length` read on a non-array state is never `> 0`). -/
def jsLenN : Json → ℕ
  | .arr l => l.length
  | _ => 0

/-- `v.length > 0` for a collection state. -/
def nonEmptyArr : Json → Bool
  | .arr (_ :: _) => true
  | _ => false

/-- `if (Array.isArray(x)) set(x)`: replace the old collection when the
incoming field is an array, keep it otherwise (absent or non-array). -/
def replaceIfArr (o : Option Json) (old : Json) : Json :=
  match o with
  | some (.arr xs) => .arr xs
  | _ => old

/-- The spread prepend `[x, ...prev]`: defined when `prev` is an array;
`none` models the TypeError JavaScript would throw on a non-iterable. -/
def spreadPrepend (x : Json) (prev : Json) : Option Json :=
  match prev with
  | .arr l => some (.arr (x :: l))
  | _ => none

/-- The whole in-memory application state: the three collections held by
the App component (`sessions`, `studyPlan`, `mcqLogs`).  Each is a raw
JSON value because load and import store parse results verbatim; in every
reachable state all three are arrays. -/
structure AppState where
  sessions : Json
  studyPlan : Json
  mcqLogs : Json

/-- The `DEFAULT_NEET_PG_SUBJECTS` list from the App component. -/
def defaultSubjects : Json :=
  .arr (["Anatomy", "Physiology", "Biochemistry", "Pathology",
    "Pharmacology", "Microbiology", "Forensic Medicine",
    "Community Medicine (PSM)", "ENT", "Ophthalmology",
    "General Medicine", "General Surgery", "Obstetrics & Gynaecology",
    "Pediatrics", "Orthopedics", "Radiology", "Dermatology", "Anesthesia",
    "Psychiatry"].map Json.str)

/-- Outcome of reading one localStorage slot at startup: the key is
absent, present but `JSON.parse` throws, or present and parsed to `v`. -/
inductive Slot where
  | absent
  | unparseable
  | parsed (v : Json)

/-- The load-from-localStorage effect of the App component: sessions slot
falls back to the initial `[]` both when absent and when unparseable;
the plan slot falls back to `DEFAULT_NEET_PG_SUBJECTS` in both cases
(the catch branch sets the default explicitly); the MCQ slot falls back
to `[]`.  A parsed value is stored verbatim.  The effect is total: no
slot content is fatal. -/
def loadState (sess plan mcq : Slot) : AppState :=
  { sessions :=
      match sess with
      | .parsed v => v
      | _ => .arr []
    studyPlan :=
      match plan with
      | .parsed v => v
      | _ => defaultSubjects
    mcqLogs :=
      match mcq with
      | .parsed v => v
      | _ => .arr [] }

/-- `handleExportData`: the backup document `{sessions, studyPlan,
mcqLogs}`.  Writing it to the download file and parsing the file back is
`JSON.parse ∘ JSON.stringify`, modelled as the identity on the tree. -/
def exportDocument (st : AppState) : Json :=
  .obj [("sessions", st.sessions), ("studyPlan", st.studyPlan),
    ("mcqLogs", st.mcqLogs)]

/-- The file content handed to `handleImportData`: either `JSON.parse`
throws on it, or it yields a value. -/
inductive ImportInput where
  | unparseable
  | parsed (v : Json)

/-- The user-visible outcome of an import (which alert fired / whether the
confirm dialog was declined). -/
inductive ImportReport where
  | parseFailure
  | cancelled
  | legacyApplied
  | applied
  | invalidFormat
deriving DecidableEq

/-- `handleImportData`.  `confirm` is the user's answer to the
`window.confirm` dialog.  An array is the legacy shape and replaces only
the sessions; otherwise a value with a truthy `sessions` property has
each of its three array-valued fields replace the matching collection;
`null` makes the `.sessions` access throw, landing in the outer catch;
anything else alerts an invalid format.  Only the collections are
modelled (the view switch and alerts are summarised in the report). -/
def handleImportData (confirm : Bool) (inp : ImportInput) (st : AppState) :
    AppState × ImportReport :=
  match inp with
  | .unparseable => (st, .parseFailure)
  | .parsed (.arr xs) =>
      if nonEmptyArr st.sessions && !confirm then (st, .cancelled)
      else ({ st with sessions := .arr xs }, .legacyApplied)
  | .parsed .null => (st, .parseFailure)
  | .parsed v =>
      if isTruthy (jsGet v "sessions") then
        if (nonEmptyArr st.sessions || nonEmptyArr st.mcqLogs) && !confirm
        then (st, .cancelled)
        else ({ sessions := replaceIfArr (jsGet v "sessions") st.sessions,
                studyPlan := replaceIfArr (jsGet v "studyPlan") st.studyPlan,
                mcqLogs := replaceIfArr (jsGet v "mcqLogs") st.mcqLogs },
              .applied)
      else (st, .invalidFormat)

/-- `handleClearData`: on a confirmed reset, sessions and MCQ logs are
emptied (the study plan is kept); declining leaves the state untouched. -/
def handleClearData (confirm : Bool) (st : AppState) : AppState :=
  if confirm then { st with sessions := .arr [], mcqLogs := .arr [] }
  else st

/-! ### Insight/Verification Gateway (geminiService.ts) -/

/-- Environment of one `verifyMCQProof` call, everything beyond the
function's own control: the request fails in transport, succeeds but
`response.text` is absent or empty (falsy), succeeds with a body that
`JSON.parse` rejects, or succeeds with a body parsing to `v`. -/
inductive VerifyEnv where
  | transportFail
  | noText
  | badJson
  | goodJson (v : Json)

/-- The object built in the catch branch of `verifyMCQProof`. -/
def cannedVerifyFailure : Json :=
  .obj [("verified", .bool false), ("count", .num 0),
    ("feedback",
      .str "AI verification failed. Please check your internet connection or try a clearer image.")]

/-- `verifyMCQProof`: throws a configuration error when the API key is
missing; otherwise every failure inside the try block (transport, falsy
body, unparseable body) is caught and mapped to `cannedVerifyFailure`,
while a parseable body is returned verbatim - `JSON.parse(text)` is not
validated against the declared three-field shape. -/
def verifyMCQProof (hasKey : Bool) (env : VerifyEnv) : Except String Json :=
  if hasKey then
    .ok (match env with
      | .goodJson v => v
      | _ => cannedVerifyFailure)
  else .error "API Key is missing."

/-- Whether a value has the declared result shape of `verifyMCQProof`:
boolean `verified`, non-negative numeric `count`, string `feedback`. -/
def isStructuredTriple (v : Json) : Bool :=
  match jsGet v "verified", jsGet v "count", jsGet v "feedback" with
  | some (.bool _), some (.num c), some (.str _) => decide (0 ≤ c)
  | _, _, _ => false

/-- Whether a value carries a non-empty string `feedback` field. -/
def feedbackNonempty (v : Json) : Bool :=
  match jsGet v "feedback" with
  | some (.str s) => !(s == "")
  | _ => false

/-- Which alert the MCQ-upload flow fired. -/
inductive MCQReport where
  | configError
  | savedAlert
  | failedAlert
deriving DecidableEq

/-- The MCQLog object built by `handleMCQUpload` on a verified result:
`id` and `timestamp` are fresh, `verified` is the literal `true`, and
`count`/`feedback` are copied from the gateway result unvalidated (an
`undefined` field is modelled as omitted, its persisted form). -/
def mkMCQLog (freshId : String) (now : ℤ) (res : Json) : Json :=
  .obj ([("id", .str freshId), ("timestamp", .num (now : ℚ))]
    ++ (match jsGet res "count" with
        | some c => [("count", c)]
        | none => [])
    ++ [("verified", .bool true)]
    ++ (match jsGet res "feedback" with
        | some f => [("feedback", f)]
        | none => []))

/-- `handleMCQUpload` after the file is read: calls the gateway, and on a
result with truthy `verified` prepends a fresh log to the MCQ store;
a thrown configuration error is caught by the surrounding catch and
only alerts.  `none` models the impossible spread of a non-array store. -/
def handleMCQUpload (hasKey : Bool) (env : VerifyEnv) (freshId : String)
    (now : ℤ) (st : AppState) : Option (AppState × MCQReport) :=
  match verifyMCQProof hasKey env with
  | .error _ => some (st, .configError)
  | .ok res =>
      if isTruthy (jsGet res "verified") then
        (spreadPrepend (mkMCQLog freshId now res) st.mcqLogs).map
          (fun m => ({ st with mcqLogs := m }, .savedAlert))
      else some (st, .failedAlert)

/-- The stored-logs invariant of the MCQ Log Store: the store is an array
and every element has `verified` equal to the boolean `true`. -/
def mcqAllVerified (st : AppState) : Bool :=
  match st.mcqLogs with
  | .arr l => l.all (fun log => isTrueJson (jsGet log "verified"))
  | _ => false

/-- Whether an import input can only write verified logs: its `mcqLogs`
field, when it is an array (the one case the import applies), contains
only elements with `verified = true`. -/
def importKeepsVerified : ImportInput → Bool
  | .unparseable => true
  | .parsed v =>
      match jsGet v "mcqLogs" with
      | some (.arr l) => l.all (fun log => isTrueJson (jsGet log "verified"))
      | _ => true

/-! ### Domain records and dashboard derivations (types.ts, Dashboard.tsx) -/

/-- A completed study session as typed in `types.ts` (`duration` in
seconds, `startTime`/`endTime` in milliseconds). -/
structure StudySession where
  id : String
  subject : String
  startTime : ℤ
  endTime : ℤ
  duration : ℕ
  concentration : ℕ
  notes : Option String

/-- The numeric content of `x.toFixed(k)`: round to `k` decimal places,
ties away from zero on our non-negative inputs (ECMA picks the larger
candidate on a tie). -/
def toFixedQ (k : ℕ) (x : ℚ) : ℚ :=
  ((⌊x * (10 : ℚ) ^ k + 1 / 2⌋ : ℤ) : ℚ) / (10 : ℚ) ^ k

/-- The day containing a millisecond timestamp in UTC, as a day number
(days since epoch; one day is 86400000 ms).  Two timestamps render to the
same ISO date prefix exactly when they have the
same UTC day number, so the date string prefix produced by
`toISOString().split(...)` is modelled by this number. -/
def utcDayNumber (t : ℤ) : ℤ := t.fdiv 86400000

/-- The local calendar day of a timestamp for an observer `tz` minutes
east of UTC, as a day number; this is the content of the App component's
`getLocalDateString` (which formats via `getFullYear`/`getMonth`/
`getDate`, i.e. local time). -/
def localDayNumber (tz t : ℤ) : ℤ := (t + tz * 60000).fdiv 86400000

/-- `getLast7Days` from Dashboard.tsx: for i = 6 down to 0, today minus i
days, formatted through `toISOString` - i.e. the UTC day numbers
`utcDay(now) - 6 .. utcDay(now)` in chronological order. -/
def getLast7Days (now : ℤ) : List ℤ :=
  (List.range 7).map (fun k => utcDayNumber (now - (6 - (k : ℤ)) * 86400000))

/-- One entry of the Dashboard's `dailyData` (the weekday label rendered
from the date is omitted; `day` is the underlying bucket day). -/
structure DailyEntry where
  day : ℤ
  hours : ℚ
  concentration : ℚ
deriving DecidableEq

/-- `sessions.reduce((acc, curr) => acc + curr.duration, 0)`. -/
def durTotal (ss : List StudySession) : ℕ :=
  ss.foldl (fun acc s => acc + s.duration) 0

/-- `sessions.reduce((acc, curr) => acc + curr.concentration, 0)`. -/
def concTotal (ss : List StudySession) : ℕ :=
  ss.foldl (fun acc s => acc + s.concentration) 0

/-- `dailyData` from Dashboard.tsx: for each of the last seven days a
session is matched by `toISOString().startsWith(date)`, i.e. by the UTC
day of its `startTime`; hours are the duration sum over 3600 to two
decimals, concentration the average to one decimal (0 for an empty day). -/
def dailyData (now : ℤ) (ss : List StudySession) : List DailyEntry :=
  (getLast7Days now).map (fun d =>
    let dayS := ss.filter (fun s => utcDayNumber s.startTime == d)
    { day := d
      hours := toFixedQ 2 ((durTotal dayS : ℚ) / 3600)
      concentration :=
        toFixedQ 1
          (if dayS.length = 0 then 0
           else (concTotal dayS : ℚ) / dayS.length) })

/-- Dashboard `totalHours`: the duration sum over 3600, to one decimal. -/
def totalHours (ss : List StudySession) : ℚ :=
  toFixedQ 1 ((durTotal ss : ℚ) / 3600)

/-- Dashboard `globalAvgConc`: the mean concentration to one decimal, the
literal "0.0" when there are no sessions. -/
def globalAvgConc (ss : List StudySession) : ℚ :=
  if ss.length = 0 then 0
  else toFixedQ 1 ((concTotal ss : ℚ) / ss.length)

/-- Dashboard `totalSessions`. -/
def totalSessions (ss : List StudySession) : ℕ := ss.length

/-! ### Insights prompt construction (geminiService.ts) -/

/-- One entry of the summary embedded in the insights prompt.  The
`toLocaleDateString` rendering of `startTime` is modelled by the local
day number (the rendering is determined by, and distinguishes, the local
calendar day). -/
structure SessionSummary where
  date : ℤ
  durationMinutes : ℕ
  subject : String
  concentration : ℕ
  notes : String
deriving DecidableEq

/-- The per-session summary map inside `generateStudyInsights`:
`durationMinutes` is `Math.round(duration / 60)` (half rounds up) and
falsy notes (absent or empty) become the string "None". -/
def summarize (tz : ℤ) (s : StudySession) : SessionSummary :=
  { date := localDayNumber tz s.startTime
    durationMinutes := (s.duration + 30) / 60
    subject := s.subject
    concentration := s.concentration
    notes :=
      match s.notes with
      | some n => if n == "" then "None" else n
      | none => "None" }

/-- `xs.slice(-n)`: the final `n` elements of the array (the whole array
when it is shorter). -/
def jsSliceLast (n : ℕ) (xs : List α) : List α :=
  xs.drop (xs.length - n)

/-- The summary list `sessions.map(...).slice(-25)` sent in the prompt. -/
def insightsSummary (tz : ℤ) (ss : List StudySession) : List SessionSummary :=
  jsSliceLast 25 (ss.map (summarize tz))

/-- `generateStudyInsights` up to the remote call: a missing key throws a
configuration error; an empty history short-circuits to the canned
guidance string; otherwise the prompt payload is the sliced summary. -/
def generateStudyInsights (tz : ℤ) (hasKey : Bool)
    (ss : List StudySession) :
    Except String (String ⊕ List SessionSummary) :=
  if !hasKey then
    .error "API Key is missing. Please set the API_KEY environment variable."
  else if ss.length = 0 then
    .ok (.inl "No study sessions recorded yet. Start your revision to get personalized insights!")
  else .ok (.inr (insightsSummary tz ss))

/-! ### Session Timer (Timer component) -/

/-- The `sessionState` of the Timer component. -/
inductive TPhase where
  | IDLE
  | RUNNING
  | PAUSED
  | FINISHED
deriving DecidableEq

/-- The Timer component state: the interval flag `isActive`, the tick
counter `seconds`, the phase, and the recorded `startTime`. -/
structure TimerState where
  isActive : Bool
  seconds : ℕ
  phase : TPhase
  startTime : Option ℤ
deriving DecidableEq

/-- The fresh Timer state. -/
def initTimer : TimerState := ⟨false, 0, .IDLE, none⟩

/-- An externally timed event hitting the Timer: a press of the
play/pause button, a press of the stop button, or a delivery of the
per-second interval callback.  The timestamp is wall-clock ms. -/
inductive TEvent where
  | toggle (t : ℤ)
  | stop (t : ℤ)
  | tick (t : ℤ)

/-- One Timer transition: `toggleTimer` starts from IDLE (recording
`startTime = now`), pauses from RUNNING, resumes from PAUSED; `stopTimer`
unconditionally freezes into FINISHED; a delivered tick increments the
counter exactly when the interval is active - the increment is `s + 1`
regardless of how much wall-clock time passed. -/
def timerStep (st : TimerState) : TEvent → TimerState
  | .toggle t =>
      match st.phase with
      | .IDLE => { st with startTime := some t, phase := .RUNNING, isActive := true }
      | .RUNNING => { st with phase := .PAUSED, isActive := false }
      | .PAUSED => { st with phase := .RUNNING, isActive := true }
      | .FINISHED => st
  | .stop _ => { st with isActive := false, phase := .FINISHED }
  | .tick _ => if st.isActive then { st with seconds := st.seconds + 1 } else st

/-- Run the Timer over a sequence of events. -/
def runTimer (evs : List TEvent) : TimerState :=
  evs.foldl timerStep initTimer

/-- The session draft built by `handleSubmit` (the id is assigned later
by `addSession`): duration is the frozen tick counter. -/
structure SessionDraft where
  subject : String
  startTime : ℤ
  endTime : ℤ
  duration : ℕ
  concentration : ℕ
  notes : String
deriving DecidableEq

/-- `handleSubmit` of the Timer form: returns early on a falsy
`startTime` - in JavaScript `!startTime` holds both when it is null and
when it is the number 0 - otherwise defaults a blank subject to
"General Study" and commits `duration = seconds` (the tick count). -/
def handleSubmit (st : TimerState) (now : ℤ) (subject : String)
    (conc : ℕ) (notes : String) : Option SessionDraft :=
  match st.startTime with
  | none => none
  | some t0 =>
      if t0 == 0 then none
      else
        some { subject := if subject == "" then "General Study" else subject
               startTime := t0
               endTime := now
               duration := st.seconds
               concentration := conc
               notes := notes }

/-- Accumulator for the wall-clock specification of running time:
(current phase, accumulated RUNNING milliseconds, instant the current
RUNNING stretch began). -/
def runningAcc : TPhase × ℤ × ℤ → TEvent → TPhase × ℤ × ℤ
  | (ph, acc, since), .toggle t =>
      match ph with
      | .IDLE => (.RUNNING, acc, t)
      | .RUNNING => (.PAUSED, acc + (t - since), t)
      | .PAUSED => (.RUNNING, acc, t)
      | .FINISHED => (ph, acc, since)
  | (ph, acc, since), .stop t =>
      match ph with
      | .RUNNING => (.FINISHED, acc + (t - since), t)
      | _ => (.FINISHED, acc, since)
  | s, .tick _ => s

/-- Total wall-clock milliseconds a trace spends in the RUNNING phase
(the quantity the specification says `duration` must equal, divided by
1000). -/
def runningMillis (evs : List TEvent) : ℤ :=
  (evs.foldl runningAcc (.IDLE, 0, 0)).2.1

/-! ### Concrete inputs used by the theorems below -/

/-- Session A of the spec scenario: 1800 s of Anatomy at concentration 4. -/
def sessA : StudySession := ⟨"a", "Anatomy", 0, 1800000, 1800, 4, none⟩

/-- Session B of the spec scenario: 900 s of Pathology at concentration 2. -/
def sessB : StudySession := ⟨"b", "Pathology", 0, 900000, 900, 2, none⟩

/-- A session started at 860400000 ms: 23:00 UTC of day 9, which is
already 04:30 of day 10 for an observer at UTC+05:30. -/
def sessNight : StudySession := ⟨"n", "Anatomy", 860400000, 860400000, 3600, 5, none⟩

/-- The j-th session of a 26-session history (index 0 is the newest under
the store's prepend convention); its duration is 60·j seconds, so its
summarized durationMinutes is exactly j. -/
def insightSess (j : ℕ) : StudySession := ⟨"s", "Anatomy", 0, 0, 60 * j, 3, none⟩

/-- A 26-entry newest-first session history. -/
def insightList : List StudySession := (List.range 26).map insightSess

/-- An empty application state (all three collections empty arrays). -/
def stBlank : AppState := ⟨.arr [], .arr [], .arr []⟩

/-- A structured import document that carries a study plan and MCQ logs
but no `sessions` field. -/
def docNoSessions : Json :=
  .obj [("studyPlan", .arr [.str "Anatomy"]), ("mcqLogs", .arr [])]

/-- A structured import document with all three collections present. -/
def docWitness : Json :=
  .obj [("sessions", .arr []), ("studyPlan", .arr [.str "Anatomy"]),
    ("mcqLogs", .arr [])]

/-- An MCQ log record whose `verified` field is `false`. -/
def badLog : Json :=
  .obj [("id", .str "b"), ("timestamp", .num 0), ("count", .num 50),
    ("verified", .bool false), ("feedback", .str "imported")]

/-- A structured import document smuggling an unverified MCQ log. -/
def docBadImport : Json :=
  .obj [("sessions", .arr []), ("mcqLogs", .arr [badLog])]

/-- A structured import document whose MCQ logs are all verified. -/
def docGoodImport : Json :=
  .obj [("sessions", .arr []), ("mcqLogs", .arr [])]

/-- A timer run: start at t = 1000 ms, stop at t = 3000 ms, with no
interval ticks delivered in between (e.g. a backgrounded tab). -/
def timerTrace : List TEvent := [.toggle 1000, .stop 3000]

/-! ### Helper lemmas -/

/-- A `reduce`-style fold of `+ f s` computes `init` plus the sum of the
mapped list. -/
theorem foldl_add_map (f : StudySession → ℕ) (init : ℕ)
    (ss : List StudySession) :
    ss.foldl (fun acc s => acc + f s) init = init + (ss.map f).sum := by
  induction ss generalizing init with
  | nil => simp
  | cons s t ih => simp [ih, Nat.add_assoc]

/-- Every log object built by `handleMCQUpload` carries `verified = true`
(the field is the hard-coded literal, after the possibly-absent count and
before the possibly-absent feedback). -/
theorem mkMCQLog_verified (freshId : String) (now : ℤ) (res : Json) :
    isTrueJson (jsGet (mkMCQLog freshId now res) "verified") = true := by
  unfold mkMCQLog
  cases jsGet res "count" <;> cases jsGet res "feedback" <;> rfl

/-! ### Claim theorems -/

/-- Claim C1 (confirmed): for every application state (whose three
collections are arrays, as in every reachable state), importing the
document produced by `handleExportData`, with the destructive-replacement
confirmation accepted, reproduces the Session Store, the Study Plan and
the MCQ Log Store exactly. -/
theorem export_import_roundtrip (a b c : List Json) :
    handleImportData true (.parsed (exportDocument ⟨.arr a, .arr b, .arr c⟩))
      ⟨.arr a, .arr b, .arr c⟩ =
      (⟨.arr a, .arr b, .arr c⟩, .applied) := by
  cases a <;> cases c <;> rfl

/-- Claim C2 (code bug, evaluated at the failing input): Dashboard's
7-day derivation does yield exactly 7 chronological entries with zero
hours on empty days, but it buckets by the UTC day of `startTime`
(`toISOString`), not the local calendar day.  At UTC+05:30 with now =
860400000 ms (23:00 UTC of day 9 = 04:30 local of day 10), a session
started at that instant is counted in the day-9 bucket although its local
calendar day is 10 - a day that is not among the seven buckets at all,
and the window ends at UTC-today 9 rather than local-today 10. -/
theorem daily_buckets_utc_divergence :
    (dailyData 860400000 [sessNight]).length = 7
    ∧ (dailyData 860400000 [sessNight]).map DailyEntry.day = [3, 4, 5, 6, 7, 8, 9]
    ∧ (dailyData 860400000 [sessNight]).map DailyEntry.hours = [0, 0, 0, 0, 0, 0, 1]
    ∧ utcDayNumber sessNight.startTime = 9
    ∧ localDayNumber 330 sessNight.startTime = 10
    ∧ localDayNumber 330 860400000 ∉ getLast7Days 860400000 := by
  refine ⟨by decide, by decide, ?_, by decide, by decide, by decide⟩
  simp [dailyData, getLast7Days, utcDayNumber, sessNight, durTotal,
    List.range_succ]
  norm_num [toFixedQ]

/-- Claim C3 (code bug, evaluated at the failing input): with a key
present and a non-empty history, `generateStudyInsights` summarizes at
most 25 entries with durationMinutes = round(duration/60), but
`slice(-25)` takes the final 25 array elements, which under the store's
newest-first convention are the 25 oldest sessions: on a 26-session
history with durations 0,60,...,1500 s (index 0 newest) the prompt holds
minutes 1..25 - dropping the newest session instead of the oldest. -/
theorem insights_slice_takes_oldest :
    generateStudyInsights 0 true insightList =
      .ok (.inr (insightsSummary 0 insightList))
    ∧ (insightsSummary 0 insightList).length = 25
    ∧ (insightsSummary 0 insightList).map SessionSummary.durationMinutes =
        List.range' 1 25
    ∧ (insightList.take 25).map (fun s => (summarize 0 s).durationMinutes) =
        List.range 25
    ∧ List.range' 1 25 ≠ List.range 25 := by
  refine ⟨rfl, by decide, by decide, by decide, by decide⟩

/-- Claim C4 (corrected, counterexample): on the spec scenario the code's
`totalHours` is not 0.75 - the `.toFixed(1)` rounding yields 0.8. -/
theorem summary_totals_scenario_cex :
    totalHours [sessA, sessB] ≠ 3 / 4 ∧ totalHours [sessA, sessB] = 4 / 5 := by
  constructor <;> norm_num [totalHours, toFixedQ, durTotal, sessA, sessB]

/-- Claim C4 (amended): the summary derivations compute the duration sum
over 3600 and the mean concentration, each rounded to one decimal by
`.toFixed(1)` (0 when the list is empty), plus the session count; on the
scenario [A, B] the unrounded total is 0.75 but the derived `totalHours`
is 0.8, with avgConcentration 3.0 and sessionsCount 2. -/
theorem summary_totals_amended :
    (∀ ss : List StudySession, durTotal ss = (ss.map StudySession.duration).sum)
    ∧ (∀ ss : List StudySession,
        concTotal ss = (ss.map StudySession.concentration).sum)
    ∧ (∀ ss : List StudySession,
        totalHours ss = toFixedQ 1 (((ss.map StudySession.duration).sum : ℚ) / 3600))
    ∧ (∀ ss : List StudySession, ss.length ≠ 0 →
        globalAvgConc ss =
          toFixedQ 1 (((ss.map StudySession.concentration).sum : ℚ) / ss.length))
    ∧ globalAvgConc [] = 0
    ∧ totalHours [sessA, sessB] = 4 / 5
    ∧ (durTotal [sessA, sessB] : ℚ) / 3600 = 3 / 4
    ∧ globalAvgConc [sessA, sessB] = 3
    ∧ totalSessions [sessA, sessB] = 2 := by
  have hdur : ∀ ss : List StudySession,
      durTotal ss = (ss.map StudySession.duration).sum := by
    intro ss
    simpa using foldl_add_map StudySession.duration 0 ss
  have hconc : ∀ ss : List StudySession,
      concTotal ss = (ss.map StudySession.concentration).sum := by
    intro ss
    simpa using foldl_add_map StudySession.concentration 0 ss
  refine ⟨hdur, hconc, ?_, ?_, rfl,
    by norm_num [totalHours, toFixedQ, durTotal, sessA, sessB],
    by norm_num [durTotal, sessA, sessB],
    by norm_num [globalAvgConc, toFixedQ, concTotal, sessA, sessB],
    rfl⟩
  · intro ss
    rw [totalHours, hdur]
  · intro ss h
    rw [globalAvgConc, if_neg h, hconc]

/-- Claim C4 (witness): the amended average law applied to the singleton
history [A]. -/
theorem summary_totals_amended_witness :
    globalAvgConc [sessA] =
      toFixedQ 1 ((([sessA].map StudySession.concentration).sum : ℚ) /
        ([sessA] : List StudySession).length) :=
  summary_totals_amended.2.2.2.1 [sessA] (by decide)

/-- Claim C5 (corrected, counterexample): with a credential present, a
response body that parses as JSON but lacks the declared three-field
shape (here the bare number 5) is returned verbatim - not mapped to the
canned diagnostic (which does have the shape) and not a structured
result. -/
theorem verify_proof_raw_json_cex :
    verifyMCQProof true (.goodJson (.num 5)) = .ok (.num 5)
    ∧ isStructuredTriple (.num 5) = false
    ∧ isStructuredTriple cannedVerifyFailure = true
    ∧ feedbackNonempty cannedVerifyFailure = true := by
  refine ⟨rfl, rfl, ?_, rfl⟩
  show decide ((0 : ℚ) ≤ 0) = true
  norm_num

/-- Claim C5 (amended): with a credential present `verifyMCQProof` never
raises past its boundary: transport failure, a missing/empty body and an
unparseable body are each mapped to the canned diagnostic (which has
verified = false, count = 0 and non-empty feedback), while any body that
parses as JSON is returned verbatim without shape validation. -/
theorem verify_proof_amended :
    ∀ v : Json,
      verifyMCQProof true .transportFail = .ok cannedVerifyFailure
      ∧ verifyMCQProof true .noText = .ok cannedVerifyFailure
      ∧ verifyMCQProof true .badJson = .ok cannedVerifyFailure
      ∧ verifyMCQProof true (.goodJson v) = .ok v
      ∧ jsGet cannedVerifyFailure "verified" = some (.bool false)
      ∧ jsGet cannedVerifyFailure "count" = some (.num 0)
      ∧ feedbackNonempty cannedVerifyFailure = true := by
  intro v
  refine ⟨rfl, rfl, rfl, rfl, rfl, rfl, rfl⟩

/-- Claim C6 (confirmed): importing a bare JSON sequence (the legacy
shape) - with the history-replacement confirmation accepted, or trivially
when the Session Store is empty - replaces only the Session Store with
that sequence and leaves the Study Plan and the MCQ Log Store unchanged. -/
theorem legacy_import_replaces_only_sessions :
    ∀ (confirm : Bool) (st : AppState) (xs : List Json),
      (confirm = true ∨ nonEmptyArr st.sessions = false) →
      handleImportData confirm (.parsed (.arr xs)) st =
        ({ st with sessions := .arr xs }, .legacyApplied) := by
  intro confirm st xs h
  rcases h with h | h <;> simp [handleImportData, h]

/-- Claim C6 (witness): the legacy import applied to the blank state. -/
theorem legacy_import_replaces_only_sessions_witness :
    handleImportData true (.parsed (.arr [.num 1])) stBlank =
      ({ stBlank with sessions := .arr [.num 1] }, .legacyApplied) :=
  legacy_import_replaces_only_sessions true stBlank [.num 1] (Or.inl rfl)

/-- Claim C7 (corrected, counterexample): a structured document whose
`sessions` field is absent is not treated as the current shape with an
absent collection left untouched - the whole document is rejected as an
invalid format and nothing is applied, although its `studyPlan` field is
present with one entry (the post-state plan stays empty). -/
theorem import_missing_sessions_rejected_cex :
    handleImportData true (.parsed docNoSessions) stBlank =
      (stBlank, .invalidFormat)
    ∧ jsLenN ((jsGet docNoSessions "studyPlan").getD .null) = 1
    ∧ jsLenN (handleImportData true (.parsed docNoSessions) stBlank).1.studyPlan = 0 :=
  ⟨rfl, rfl, rfl⟩

/-- Claim C7 (amended): a document is recognized as the current shape
only when its `sessions` field is present and truthy; then (with the
confirmation accepted) each of the three fields present as an array
replaces its collection, absent fields leave theirs untouched, and
success is reported.  A parsed document that is neither an array nor
carries a truthy `sessions` field is rejected with no mutation of any of
the three collections. -/
theorem import_shape_amended :
    ∀ (confirm : Bool) (st : AppState) (v : Json) (xs : List Json),
      ((jsGet v "sessions" = some (.arr xs) →
        (handleImportData true (.parsed v) st).1.sessions = .arr xs
        ∧ (handleImportData true (.parsed v) st).2 = .applied
        ∧ (jsGet v "studyPlan" = none →
            (handleImportData true (.parsed v) st).1.studyPlan = st.studyPlan)
        ∧ (∀ p, jsGet v "studyPlan" = some (.arr p) →
            (handleImportData true (.parsed v) st).1.studyPlan = .arr p)
        ∧ (jsGet v "mcqLogs" = none →
            (handleImportData true (.parsed v) st).1.mcqLogs = st.mcqLogs)
        ∧ (∀ m, jsGet v "mcqLogs" = some (.arr m) →
            (handleImportData true (.parsed v) st).1.mcqLogs = .arr m))
      ∧ (isArrJ v = false → isTruthy (jsGet v "sessions") = false →
          (handleImportData confirm (.parsed v) st).1 = st)) := by
  intro confirm st v xs
  constructor
  · intro hs
    cases v with
    | obj fs =>
        have htru : isTruthy (jsGet (Json.obj fs) "sessions") = true := by
          rw [hs]; rfl
        have hred : handleImportData true (.parsed (.obj fs)) st =
            (⟨replaceIfArr (jsGet (Json.obj fs) "sessions") st.sessions,
              replaceIfArr (jsGet (Json.obj fs) "studyPlan") st.studyPlan,
              replaceIfArr (jsGet (Json.obj fs) "mcqLogs") st.mcqLogs⟩,
             .applied) := by
          simp [handleImportData, htru]
        rw [hred]
        refine ⟨by rw [hs]; rfl, rfl, ?_, ?_, ?_, ?_⟩
        · intro h; rw [h]; rfl
        · intro p h; rw [h]; rfl
        · intro h; rw [h]; rfl
        · intro m h; rw [h]; rfl
    | null => exact absurd hs (by simp [jsGet])
    | bool b => exact absurd hs (by simp [jsGet])
    | num q => exact absurd hs (by simp [jsGet])
    | str s => exact absurd hs (by simp [jsGet])
    | arr l => exact absurd hs (by simp [jsGet])
  · intro harr hfal
    cases v with
    | null => rfl
    | arr l => exact absurd harr (by simp [isArrJ])
    | obj fs => simp [handleImportData, hfal]
    | bool b => simp [handleImportData, hfal]
    | num q => simp [handleImportData, hfal]
    | str s => simp [handleImportData, hfal]

/-- Claim C7 (witness): the amended replacement law applied to a document
carrying all three collections. -/
theorem import_shape_amended_witness :
    (handleImportData true (.parsed docWitness) stBlank).1.sessions =
      Json.arr [] :=
  ((import_shape_amended true stBlank docWitness []).1 rfl).1

/-- Claim C8 (corrected, counterexample): an unparseable study-plan slot
is not loaded as the empty collection - the load substitutes the
19-subject default list. -/
theorem load_unparseable_plan_cex :
    jsLenN ((loadState .absent .unparseable .absent).studyPlan) = 19
    ∧ jsLenN ((loadState .absent .unparseable .absent).studyPlan) ≠ 0 :=
  ⟨rfl, by decide⟩

/-- Claim C8 (amended): the startup load is total (never fatal) and
treats unparseable - or absent - content as no data, falling back to the
empty collection for the sessions and MCQ slots but to the default
subject list for the study-plan slot. -/
theorem load_fallback_amended :
    ∀ a b : Slot,
      (loadState .unparseable a b).sessions = Json.arr []
      ∧ (loadState .absent a b).sessions = Json.arr []
      ∧ (loadState a .unparseable b).studyPlan = defaultSubjects
      ∧ (loadState a .absent b).studyPlan = defaultSubjects
      ∧ (loadState a b .unparseable).mcqLogs = Json.arr []
      ∧ (loadState a b .absent).mcqLogs = Json.arr [] := by
  intro a b
  exact ⟨rfl, rfl, rfl, rfl, rfl, rfl⟩

/-- Claim C9 (corrected, counterexample): import replaces the MCQ Log
Store verbatim, so importing a structured document that carries a log
with `verified = false` moves the store from a state satisfying the
all-verified invariant into one violating it. -/
theorem mcq_import_unverified_cex :
    mcqAllVerified stBlank = true
    ∧ (handleImportData true (.parsed docBadImport) stBlank).2 = .applied
    ∧ mcqAllVerified (handleImportData true (.parsed docBadImport) stBlank).1 =
        false :=
  ⟨rfl, rfl, rfl⟩

/-- Claim C9 (amended): the all-verified invariant of the MCQ Log Store
is preserved by a successful verification upload (the stored log's
`verified` is the hard-coded literal `true`), by clearing, and by every
restore of a document carrying only verified logs; an import is free to
write unverified logs otherwise. -/
theorem mcq_verified_invariant_amended :
    (∀ (hasKey : Bool) (env : VerifyEnv) (freshId : String) (now : ℤ)
        (st st' : AppState) (r : MCQReport),
      mcqAllVerified st = true →
      handleMCQUpload hasKey env freshId now st = some (st', r) →
      mcqAllVerified st' = true)
    ∧ (∀ (confirm : Bool) (st : AppState),
        mcqAllVerified st = true →
        mcqAllVerified (handleClearData confirm st) = true)
    ∧ (∀ (confirm : Bool) (inp : ImportInput) (st : AppState),
        mcqAllVerified st = true → importKeepsVerified inp = true →
        mcqAllVerified (handleImportData confirm inp st).1 = true) := by
  refine ⟨?_, ?_, ?_⟩
  · intro hasKey env freshId now st st' r hinv hup
    unfold handleMCQUpload at hup
    cases hver : verifyMCQProof hasKey env with
    | error e =>
        rw [hver] at hup
        simp only [Option.some.injEq, Prod.mk.injEq] at hup
        rw [← hup.1]
        exact hinv
    | ok res =>
        rw [hver] at hup
        cases htr : isTruthy (jsGet res "verified") with
        | true =>
            simp only [htr, if_true] at hup
            cases hml : st.mcqLogs with
            | arr l =>
                rw [hml] at hup
                simp only [spreadPrepend, Option.map_some', Option.some.injEq,
                  Prod.mk.injEq] at hup
                rw [← hup.1]
                rw [mcqAllVerified] at hinv ⊢
                rw [hml] at hinv
                simp only [List.all_cons, mkMCQLog_verified, Bool.true_and]
                exact hinv
            | null => rw [hml] at hup; simp [spreadPrepend] at hup
            | bool b => rw [hml] at hup; simp [spreadPrepend] at hup
            | num q => rw [hml] at hup; simp [spreadPrepend] at hup
            | str s => rw [hml] at hup; simp [spreadPrepend] at hup
            | obj fs => rw [hml] at hup; simp [spreadPrepend] at hup
        | false =>
            simp only [htr, Bool.false_eq_true, if_false, Option.some.injEq,
              Prod.mk.injEq] at hup
            rw [← hup.1]
            exact hinv
  · intro confirm st hinv
    cases confirm with
    | true => rfl
    | false => exact hinv
  · intro confirm inp st hinv hkeep
    cases inp with
    | unparseable => exact hinv
    | parsed v =>
        cases v with
        | null => exact hinv
        | arr xs =>
            by_cases hc : (nonEmptyArr st.sessions && !confirm) = true
            · simp only [handleImportData, if_pos hc]; exact hinv
            · simp only [handleImportData, if_neg hc]; exact hinv
        | bool b =>
            by_cases ht : isTruthy (jsGet (Json.bool b) "sessions") = true
            · exact absurd ht (by simp [jsGet, isTruthy])
            · simp only [handleImportData, if_neg ht]; exact hinv
        | num q =>
            by_cases ht : isTruthy (jsGet (Json.num q) "sessions") = true
            · exact absurd ht (by simp [jsGet, isTruthy])
            · simp only [handleImportData, if_neg ht]; exact hinv
        | str s =>
            by_cases ht : isTruthy (jsGet (Json.str s) "sessions") = true
            · exact absurd ht (by simp [jsGet, isTruthy])
            · simp only [handleImportData, if_neg ht]; exact hinv
        | obj fs =>
            by_cases ht : isTruthy (jsGet (Json.obj fs) "sessions") = true
            · simp only [handleImportData, if_pos ht]
              by_cases hc :
                  ((nonEmptyArr st.sessions || nonEmptyArr st.mcqLogs) && !confirm) = true
              · rw [if_pos hc]; exact hinv
              · rw [if_neg hc]
                rw [importKeepsVerified] at hkeep
                rw [mcqAllVerified] at hinv ⊢
                cases hm : jsGet (Json.obj fs) "mcqLogs" with
                | none => simp only [replaceIfArr]; exact hinv
                | some w =>
                    cases w with
                    | arr l =>
                        simp only [replaceIfArr]
                        rw [jsGet] at hm
                        rw [jsGet, hm] at hkeep
                        exact hkeep
                    | null => simp only [replaceIfArr]; exact hinv
                    | bool b2 => simp only [replaceIfArr]; exact hinv
                    | num q2 => simp only [replaceIfArr]; exact hinv
                    | str s2 => simp only [replaceIfArr]; exact hinv
                    | obj fs2 => simp only [replaceIfArr]; exact hinv
            · simp only [handleImportData, if_neg ht]; exact hinv

/-- Claim C9 (witness): the import-preservation law applied to a document
whose MCQ logs are all verified, starting from the blank state. -/
theorem mcq_verified_invariant_amended_witness :
    mcqAllVerified (handleImportData true (.parsed docGoodImport) stBlank).1 =
      true :=
  mcq_verified_invariant_amended.2.2 true (.parsed docGoodImport) stBlank rfl rfl

/-- Claim C10 (code bug, evaluated at the failing input): on the legal
trace start-at-1000ms / stop-at-3000ms with no interval ticks delivered
(a backgrounded process), the committed duration is the tick count 0,
while the wall-clock time spent RUNNING is 2000 ms = 2 s; duration is
therefore not the wall-clock RUNNING time independent of tick delivery. -/
theorem timer_duration_tick_count :
    runningMillis timerTrace = 2000
    ∧ (runTimer timerTrace).phase = TPhase.FINISHED
    ∧ (handleSubmit (runTimer timerTrace) 4000 "Anatomy" 3 "").map
        SessionDraft.duration = some 0
    ∧ runningMillis timerTrace / 1000 = 2
    ∧ (0 : ℤ) ≠ 2 := by
  refine ⟨rfl, rfl, rfl, rfl, by decide⟩

end NEETPG

